import Mathlib

/-!
Verification of the backup/metrics/health/items handlers of the
postgresql-ha-dr monitoring API.

The Python handlers are shallowly embedded: the values produced by
`json.loads` become the inductive type `PyVal` (JSON numbers that occur in
the claims are integers, so numbers are modelled as `Int`); `datetime`
instants become the Unix second count (`Int`), which `datetime.fromtimestamp`
and datetime comparison respect; operations that can raise a Python
exception return `Except Unit _`, where `Except.error ()` stands for an
exception escaping to the handler's generic `except Exception` clause
(HTTP 500).  The subprocess boundary, the database and the clock are the
handlers' inputs.
-/

/-- A Python value as produced by `json.loads` (numbers restricted to
integers, which covers every field the handlers inspect). -/
inductive PyVal : Type where
  | none : PyVal
  | bool (b : Bool) : PyVal
  | int (n : Int) : PyVal
  | str (s : String) : PyVal
  | list (xs : List PyVal) : PyVal
  | dict (kvs : List (String × PyVal)) : PyVal

/-- First-match lookup in a Python dict (JSON objects have unique keys). -/
def pyLookup : List (String × PyVal) → String → Option PyVal
  | [], _ => Option.none
  | (k, v) :: rest, key => if k = key then some v else pyLookup rest key

/-- Python truthiness (`if not info:` and `if archive_info:`). -/
def pyTruthy : PyVal → Bool
  | PyVal.none => false
  | PyVal.bool b => b
  | PyVal.int n => n ≠ 0
  | PyVal.str s => s ≠ ""
  | PyVal.list xs => !xs.isEmpty
  | PyVal.dict kvs => !kvs.isEmpty

/-- Python `x.get(key, default)`: only dicts have `.get`; anything else
raises `AttributeError`. -/
def pyGetD : PyVal → String → PyVal → Except Unit PyVal
  | PyVal.dict kvs, key, dflt => Except.ok ((pyLookup kvs key).getD dflt)
  | _, _, _ => Except.error ()

/-- Python `x.get(key)` (default `None`). -/
def pyGetN : PyVal → String → Except Unit PyVal
  | PyVal.dict kvs, key => Except.ok ((pyLookup kvs key).getD PyVal.none)
  | _, _ => Except.error ()

/-- Python `x[0]`: a list yields its head (`IndexError` when empty), a
string yields its first character as a one-character string, a dict looks
up the key `0` (JSON keys are strings, so `KeyError`), everything else
raises `TypeError`. -/
def pyIndex0 : PyVal → Except Unit PyVal
  | PyVal.list (x :: _) => Except.ok x
  | PyVal.list [] => Except.error ()
  | PyVal.str s =>
      match s.data with
      | [] => Except.error ()
      | c :: _ => Except.ok (PyVal.str c.toString)
  | _ => Except.error ()

/-- Python `for x in v`: lists yield their elements, strings their
characters, dicts their keys; `None`, booleans and numbers raise
`TypeError`. -/
def pyIter : PyVal → Except Unit (List PyVal)
  | PyVal.list xs => Except.ok xs
  | PyVal.str s => Except.ok (s.data.map (fun c => PyVal.str c.toString))
  | PyVal.dict kvs => Except.ok (kvs.map (fun kv => PyVal.str kv.1))
  | _ => Except.error ()

/-- Python `v == n` for an integer literal `n` (`True == 1` holds since
`bool` is an `int` subclass; no other JSON value equals an integer). -/
def pyEqInt : PyVal → Int → Bool
  | PyVal.int m, n => m = n
  | PyVal.bool b, n => (if b then (1 : Int) else 0) = n
  | _, _ => false

/-- Pydantic validation of a `str` field (no coercion from other types). -/
def asStr : PyVal → Except Unit String
  | PyVal.str s => Except.ok s
  | _ => Except.error ()

/-- Pydantic validation of a `str | None` field. -/
def asOptStr : PyVal → Except Unit (Option String)
  | PyVal.none => Except.ok Option.none
  | PyVal.str s => Except.ok (some s)
  | _ => Except.error ()

/-- Pydantic validation of an `int | None` field. -/
def asOptInt : PyVal → Except Unit (Option Int)
  | PyVal.none => Except.ok Option.none
  | PyVal.int n => Except.ok (some n)
  | _ => Except.error ()

/-- `parse_pgbackrest_timestamp` applied to the value fetched from the
timestamp dict: `None` stays absent, an integer is converted by
`datetime.fromtimestamp` (modelled as the Unix second count itself, an
order-isomorphic embedding), a bool is an int in Python, and any other
value makes `fromtimestamp` raise `TypeError`. -/
def parse_pgbackrest_timestamp : PyVal → Except Unit (Option Int)
  | PyVal.none => Except.ok Option.none
  | PyVal.int n => Except.ok (some n)
  | PyVal.bool b => Except.ok (some (if b then 1 else 0))
  | _ => Except.error ()

/-- Python `s.strip()`: drop whitespace from both ends. -/
def pyStrip (s : String) : String :=
  String.mk (((s.data.dropWhile Char.isWhitespace).reverse.dropWhile
    Char.isWhitespace).reverse)

/-- One backup record (`BackupInfo` in `models/schemas.py`); instants are
Unix seconds, per the timestamp embedding. -/
structure BackupInfo : Type where
  label : String
  type : String
  start_time : Option Int
  stop_time : Option Int
  size_bytes : Option Int
  database_size_bytes : Option Int
deriving DecidableEq, Repr

/-- WAL archive range (`WALArchiveInfo` in `models/schemas.py`). -/
structure WALArchiveInfo : Type where
  min_wal : Option String
  max_wal : Option String
deriving DecidableEq, Repr

/-- The backup status report (`BackupResponse` in `models/schemas.py`). -/
structure BackupResponse : Type where
  stanza : String
  status : String
  status_message : Option String
  backups : List BackupInfo
  wal_archive : Option WALArchiveInfo
  last_full_backup : Option Int
  last_diff_backup : Option Int
  timestamp : Int
deriving DecidableEq, Repr

/-- The result of `json.loads` on the captured stdout: either a
`JSONDecodeError` carrying its message, or a parsed value. -/
inductive Stdout : Type where
  | malformed (emsg : String) : Stdout
  | parsed (v : PyVal) : Stdout

/-- The outcome of the `subprocess.run` call in `get_backup_status`:
the executable may be missing (`FileNotFoundError`), the call may exceed
its 30-second bound (`subprocess.TimeoutExpired`), or the process
completes with an exit code, stdout and stderr. -/
inductive SubprocOutcome : Type where
  | fileNotFound : SubprocOutcome
  | timedOut : SubprocOutcome
  | completed (returncode : Int) (stdout : Stdout) (stderr : String) : SubprocOutcome

/-- Lines 88-95 of `backups.py`: build one `BackupInfo` from a backup
entry.  Python evaluates every `.get` chain first and then pydantic
validates the keyword arguments; all failures are exceptions, which the
`Except Unit` monad collapses to the same `error ()`. -/
def parseBackupEntry (backup : PyVal) : Except Unit BackupInfo := do
  let labelV ← pyGetD backup "label" (PyVal.str "unknown")
  let typeV ← pyGetD backup "type" (PyVal.str "unknown")
  let tsD1 ← pyGetD backup "timestamp" (PyVal.dict [])
  let startV ← pyGetN tsD1 "start"
  let start_time ← parse_pgbackrest_timestamp startV
  let tsD2 ← pyGetD backup "timestamp" (PyVal.dict [])
  let stopV ← pyGetN tsD2 "stop"
  let stop_time ← parse_pgbackrest_timestamp stopV
  let infoD1 ← pyGetD backup "info" (PyVal.dict [])
  let sizeV ← pyGetN infoD1 "size"
  let infoD2 ← pyGetD backup "info" (PyVal.dict [])
  let repoD ← pyGetD infoD2 "repository" (PyVal.dict [])
  let dbSizeV ← pyGetN repoD "size"
  let label ← asStr labelV
  let ty ← asStr typeV
  let size_bytes ← asOptInt sizeV
  let database_size_bytes ← asOptInt dbSizeV
  Except.ok ⟨label, ty, start_time, stop_time, size_bytes, database_size_bytes⟩

/-- Lines 99-104 of `backups.py`: the running-maximum update.  The strict
`>` keeps the earliest-seen value on ties. -/
def stepMax (cur : Option Int) (t : Int) : Option Int :=
  match cur with
  | Option.none => some t
  | some c => if t > c then some t else some c

/-- The loop of lines 87-104: parse each entry in order, appending to the
record list and updating the per-type running maxima of `stop_time`.
A datetime is always truthy in Python, so `and backup_info.stop_time`
tests presence. -/
def processBackups : List PyVal → Option Int → Option Int →
    Except Unit (List BackupInfo × Option Int × Option Int)
  | [], lf, ld => Except.ok ([], lf, ld)
  | e :: rest, lf, ld => do
      let b ← parseBackupEntry e
      let (lf', ld') :=
        match b.stop_time with
        | some t =>
            if b.type = "full" then (stepMax lf t, ld)
            else if b.type = "diff" then (lf, stepMax ld t)
            else (lf, ld)
        | Option.none => (lf, ld)
      let (bs, lfF, ldF) ← processBackups rest lf' ld'
      Except.ok (b :: bs, lfF, ldF)

/-- Lines 73-80 of `backups.py`: map the pgBackRest status code. -/
def mapStatusCode (codeV : PyVal) : String :=
  if pyEqInt codeV 0 then "ok"
  else if pyEqInt codeV 1 then "missing_stanza"
  else if pyEqInt codeV 2 then "no_backup"
  else "error"

/-- Lines 106-113 of `backups.py`: build the WAL archive range from the
archive list (first element's min/max) when the list is truthy. -/
def parseWalArchive (archiveV : PyVal) : Except Unit (Option WALArchiveInfo) :=
  if pyTruthy archiveV then do
    let a0 ← pyIndex0 archiveV
    let mnV ← pyGetN a0 "min"
    let mxV ← pyGetN a0 "max"
    let mn ← asOptStr mnV
    let mx ← asOptStr mxV
    Except.ok (some (WALArchiveInfo.mk mn mx))
  else Except.ok Option.none

/-- Line 118 of `backups.py`: `status_message if status != "ok" else None`,
with the pydantic validation of the `str | None` field that follows. -/
def validateStatusMessage (status : String) (msgV : PyVal) :
    Except Unit (Option String) :=
  if status ≠ "ok" then asOptStr msgV else Except.ok Option.none

/-- Lines 68-124 of `backups.py`: processing of the first stanza info
block once the payload is truthy. -/
def processStanzaInfo (stanza : String) (now : Int) (stanza_info : PyVal) :
    Except Unit BackupResponse := do
  let statusD1 ← pyGetD stanza_info "status" (PyVal.dict [])
  let codeV ← pyGetD statusD1 "code" (PyVal.int 99)
  let statusD2 ← pyGetD stanza_info "status" (PyVal.dict [])
  let msgV ← pyGetD statusD2 "message" (PyVal.str "Unknown")
  let backupsV ← pyGetD stanza_info "backup" (PyVal.list [])
  let entries ← pyIter backupsV
  let pbl ← processBackups entries Option.none Option.none
  let archiveV ← pyGetD stanza_info "archive" (PyVal.list [])
  let wal_archive ← parseWalArchive archiveV
  let status_message ← validateStatusMessage (mapStatusCode codeV) msgV
  Except.ok ⟨stanza, mapStatusCode codeV, status_message, pbl.1, wal_archive,
             pbl.2.1, pbl.2.2, now⟩

/-- `get_backup_status` of `backups.py` as a function of the subprocess
outcome; `Except.error ()` is an exception reaching the generic
`except Exception` clause. -/
def get_backup_status (stanza : String) (now : Int) (proc : SubprocOutcome) :
    Except Unit BackupResponse :=
  match proc with
  | SubprocOutcome.fileNotFound =>
      Except.ok ⟨stanza, "not_installed",
                 some "pgBackRest is not installed on this system",
                 [], Option.none, Option.none, Option.none, now⟩
  | SubprocOutcome.timedOut =>
      Except.ok ⟨stanza, "timeout", some "pgBackRest command timed out",
                 [], Option.none, Option.none, Option.none, now⟩
  | SubprocOutcome.completed rc stdout stderr =>
      if rc ≠ 0 then
        Except.ok ⟨stanza, "unavailable",
                   some ("pgBackRest error: " ++
                     (if pyStrip stderr = "" then "Unknown error" else pyStrip stderr)),
                   [], Option.none, Option.none, Option.none, now⟩
      else
        match stdout with
        | Stdout.malformed emsg =>
            Except.ok ⟨stanza, "parse_error",
                       some ("Failed to parse pgBackRest output: " ++ emsg),
                       [], Option.none, Option.none, Option.none, now⟩
        | Stdout.parsed info =>
            if pyTruthy info then do
              let stanza_info ← pyIndex0 info
              processStanzaInfo stanza now stanza_info
            else
              Except.ok ⟨stanza, "no_stanza",
                         some "No stanza information available",
                         [], Option.none, Option.none, Option.none, now⟩

/-- The HTTP outcome of `GET /backups`: a 200 report, or the generic 500
raised by the `except Exception` clause. -/
inductive HttpBackup : Type where
  | ok200 (r : BackupResponse) : HttpBackup
  | error500 : HttpBackup
deriving DecidableEq, Repr

/-- The `/backups` route: a returned report is HTTP 200, an unexpected
exception becomes the HTTP 500 of lines 150-154. -/
def backups_endpoint (stanza : String) (now : Int) (proc : SubprocOutcome) :
    HttpBackup :=
  match get_backup_status stanza now proc with
  | Except.ok r => HttpBackup.ok200 r
  | Except.error _ => HttpBackup.error500

/-- Python `x or d` for an integer-or-`None` value fetched from a row
(`None` and `0` are falsy, so both fall back to the default). -/
def pyOrInt (v : Option Int) (d : Int) : Int :=
  match v with
  | Option.none => d
  | some n => if n = 0 then d else n

/-- Python `round(x, 2)`, modelled on the rationals. -/
def round2 (q : ℚ) : ℚ := (round (q * 100) : ℤ) / 100

/-- Lines 62-66 and 82 of `metrics.py`: the cache-hit ratio computed from
the reported `blks_read` / `blks_hit` counters, rounded to two decimals. -/
def cache_hit_ratio (blksRead blksHit : Option Int) : ℚ :=
  let blocks_read := pyOrInt blksRead 0
  let blocks_hit := pyOrInt blksHit 0
  let total_blocks := blocks_read + blocks_hit
  round2 (if total_blocks > 0 then (blocks_hit : ℚ) / (total_blocks : ℚ) * 100
          else 100)

/-- Lines 68-71 and 77 of `metrics.py`: the connection-usage percentage
computed from the reported active and maximum connection counts, rounded
to two decimals. -/
def connection_usage_percent (activeRep maxRep : Option Int) : ℚ :=
  let active := pyOrInt activeRep 0
  let max_conn := pyOrInt maxRep 100
  round2 (if max_conn > 0 then (active : ℚ) / (max_conn : ℚ) * 100 else 0)

/-- Readiness response body (`ReadyResponse` in `models/schemas.py`). -/
structure ReadyResponse : Type where
  status : String
  database : String
  timestamp : Int
deriving DecidableEq, Repr

/-- The database round-trip of `readiness_check`: either the
`SELECT 1` fetch raises somewhere (pool acquisition or query), carrying
the exception text, or it returns a value. -/
inductive DbAttempt : Type where
  | raised (emsg : String) : DbAttempt
  | fetched (v : PyVal) : DbAttempt

/-- The HTTP outcome of `GET /ready`: 200 with a body, or the 503 whose
detail is itself a serialized `ReadyResponse`. -/
inductive ReadyOutcome : Type where
  | ok200 (r : ReadyResponse) : ReadyOutcome
  | err503 (detail : ReadyResponse) : ReadyOutcome
deriving DecidableEq, Repr

/-- `readiness_check` of `health.py` (lines 32-67) as a function of the
database round-trip outcome. -/
def readiness_check (now : Int) (db : DbAttempt) : ReadyOutcome :=
  let db_status :=
    match db with
    | DbAttempt.raised e => "error: " ++ e
    | DbAttempt.fetched v => if pyEqInt v 1 then "connected" else "error"
  let overall_status := if db_status = "connected" then "ready" else "not_ready"
  if overall_status = "not_ready" then
    ReadyOutcome.err503 ⟨overall_status, db_status, now⟩
  else
    ReadyOutcome.ok200 ⟨overall_status, db_status, now⟩

/-- One row of the `items` table; `price` is a decimal, instants are Unix
seconds. -/
structure ItemRow : Type where
  id : Int
  name : String
  description : Option String
  price : ℚ
  is_active : Bool
  created_at : Int
  updated_at : Int
deriving DecidableEq, Repr

/-- `ItemUpdate` of `models/schemas.py`: every field optional. -/
structure ItemUpdate : Type where
  name : Option String
  description : Option String
  price : Option ℚ
  is_active : Option Bool
deriving DecidableEq, Repr

/-- A SQL parameter value bound by the dynamic update statement. -/
inductive ColVal : Type where
  | vstr (s : String) : ColVal
  | vnum (q : ℚ) : ColVal
  | vbool (b : Bool) : ColVal
  | vtime (t : Int) : ColVal
deriving DecidableEq, Repr

/-- Lines 129-151 of `items.py`: the dynamically built list of column
assignments, one per field present in the request body, in source order. -/
def buildUpdateFields (item : ItemUpdate) : List (String × ColVal) :=
  (match item.name with
   | some v => [("name", ColVal.vstr v)]
   | Option.none => []) ++
  (match item.description with
   | some v => [("description", ColVal.vstr v)]
   | Option.none => []) ++
  (match item.price with
   | some v => [("price", ColVal.vnum v)]
   | Option.none => []) ++
  (match item.is_active with
   | some v => [("is_active", ColVal.vbool v)]
   | Option.none => [])

/-- Semantics of one `SET column = value` assignment on a row; an
assignment naming no column of the table leaves the row unchanged (the
builder only ever emits the five known columns). -/
def applyAssignment (row : ItemRow) : String × ColVal → ItemRow
  | ("name", ColVal.vstr v) => { row with name := v }
  | ("description", ColVal.vstr v) => { row with description := some v }
  | ("price", ColVal.vnum v) => { row with price := v }
  | ("is_active", ColVal.vbool v) => { row with is_active := v }
  | ("updated_at", ColVal.vtime v) => { row with updated_at := v }
  | _ => row

/-- The HTTP outcome of `PUT /items/id`. -/
inductive UpdateOutcome : Type where
  | updated (r : ItemRow) : UpdateOutcome
  | badRequest400 : UpdateOutcome
  | notFound404 : UpdateOutcome
deriving DecidableEq, Repr

/-- `update_item` of `items.py` (lines 123-175) as a function of the row
currently stored under the requested id (`Option.none` when absent).
Returns the HTTP outcome and the row stored after the request: the
request body's present fields are collected (lines 129-151), an empty
collection is rejected with 400 before anything touches the database
(lines 153-154), otherwise `updated_at` is appended (lines 156-157) and
the `UPDATE ... RETURNING` statement applies exactly those assignments to
the matched row, or reports 404 when no row matches. -/
def update_item (item : ItemUpdate) (now : Int) (row0 : Option ItemRow) :
    UpdateOutcome × Option ItemRow :=
  let update_fields := buildUpdateFields item
  if update_fields.isEmpty then (UpdateOutcome.badRequest400, row0)
  else
    let assignments := update_fields ++ [("updated_at", ColVal.vtime now)]
    match row0 with
    | Option.none => (UpdateOutcome.notFound404, Option.none)
    | some row =>
        let r := assignments.foldl applyAssignment row
        (UpdateOutcome.updated r, some r)

/-- The `stop_time`s of the records of type "full" that have one: the
pool over which the claims' running maximum for `last_full_backup`
ranges. -/
def fullStops (bs : List BackupInfo) : List Int :=
  bs.filterMap (fun b => if b.type = "full" then b.stop_time else Option.none)

/-- The `stop_time`s of the records of type "diff" that have one. -/
def diffStops (bs : List BackupInfo) : List Int :=
  bs.filterMap (fun b => if b.type = "diff" then b.stop_time else Option.none)

/-- Sample payload entry: a full backup finishing at time 2. -/
def entryFullA : PyVal :=
  PyVal.dict [("type", PyVal.str "full"),
              ("timestamp", PyVal.dict [("stop", PyVal.int 2)])]

/-- Sample payload entry: a full backup finishing at time 1. -/
def entryFullB : PyVal :=
  PyVal.dict [("type", PyVal.str "full"),
              ("timestamp", PyVal.dict [("stop", PyVal.int 1)])]

/-- The record parsed from `entryFullA`. -/
def recFullA : BackupInfo :=
  ⟨"unknown", "full", Option.none, some 2, Option.none, Option.none⟩

/-- The record parsed from `entryFullB`. -/
def recFullB : BackupInfo :=
  ⟨"unknown", "full", Option.none, some 1, Option.none, Option.none⟩

lemma pyOrInt_some_zero (n : Int) : pyOrInt (some n) 0 = n := by
  rcases eq_or_ne n 0 with h | h <;> simp [pyOrInt, h]

/-- C1: for every expected failure mode of the backup-status translator —
executable missing, subprocess timeout, non-zero exit, or stdout failing
to parse as JSON — `get_backup_status` returns a report whose status is
respectively `not_installed`, `timeout`, `unavailable`, or `parse_error`,
each with an empty backup record list, and never raises; the endpoint
answers 200, not 500, in all four cases. -/
theorem backup_expected_failure_modes (stanza : String) (now : Int)
    (rc : Int) (st : Stdout) (stderr emsg : String) (hrc : rc ≠ 0) :
    backups_endpoint stanza now SubprocOutcome.fileNotFound =
      HttpBackup.ok200 ⟨stanza, "not_installed",
        some "pgBackRest is not installed on this system",
        [], Option.none, Option.none, Option.none, now⟩ ∧
    backups_endpoint stanza now SubprocOutcome.timedOut =
      HttpBackup.ok200 ⟨stanza, "timeout", some "pgBackRest command timed out",
        [], Option.none, Option.none, Option.none, now⟩ ∧
    (∃ r, backups_endpoint stanza now (SubprocOutcome.completed rc st stderr) =
        HttpBackup.ok200 r ∧ r.status = "unavailable" ∧ r.backups = []) ∧
    (∃ r, backups_endpoint stanza now
        (SubprocOutcome.completed 0 (Stdout.malformed emsg) stderr) =
        HttpBackup.ok200 r ∧ r.status = "parse_error" ∧ r.backups = []) := by
  refine ⟨rfl, rfl, ⟨⟨stanza, "unavailable",
    some ("pgBackRest error: " ++
      (if pyStrip stderr = "" then "Unknown error" else pyStrip stderr)),
    [], Option.none, Option.none, Option.none, now⟩, ?_, rfl, rfl⟩,
    ⟨_, rfl, rfl, rfl⟩⟩
  simp [backups_endpoint, get_backup_status, hrc]

/-- C1 witness: exit code 1 is non-zero and yields a 200 `unavailable`
report with no records. -/
theorem backup_expected_failure_modes_witness :
    (1 : Int) ≠ 0 ∧
    (∃ r, backups_endpoint "demo" 0
        (SubprocOutcome.completed 1 (Stdout.parsed PyVal.none) "") =
        HttpBackup.ok200 r ∧ r.status = "unavailable" ∧ r.backups = []) :=
  ⟨by decide, (backup_expected_failure_modes "demo" 0 1 (Stdout.parsed PyVal.none)
    "" "x" (by decide)).2.2.1⟩

/-- C4: for every non-zero subprocess exit code, `get_backup_status`
returns (never raises) a report with status `unavailable`, an empty
record list, and a message built from the stripped standard-error text,
falling back to "Unknown error" when it strips to empty. -/
theorem nonzero_exit_unavailable (stanza : String) (now rc : Int) (st : Stdout)
    (stderr : String) (hrc : rc ≠ 0) :
    get_backup_status stanza now (SubprocOutcome.completed rc st stderr) =
      Except.ok ⟨stanza, "unavailable",
        some ("pgBackRest error: " ++
          (if pyStrip stderr = "" then "Unknown error" else pyStrip stderr)),
        [], Option.none, Option.none, Option.none, now⟩ := by
  simp [get_backup_status, hrc]

/-- C4 witness: exit code 1 with whitespace-only stderr produces the
"Unknown error" fallback message and an empty record list. -/
theorem nonzero_exit_unavailable_witness :
    (1 : Int) ≠ 0 ∧
    get_backup_status "demo" 0
        (SubprocOutcome.completed 1 (Stdout.parsed PyVal.none) "  ") =
      Except.ok ⟨"demo", "unavailable", some "pgBackRest error: Unknown error",
        [], Option.none, Option.none, Option.none, 0⟩ :=
  ⟨by decide, by
    rw [nonzero_exit_unavailable "demo" 0 1 (Stdout.parsed PyVal.none) "  " (by decide)]
    simp [show pyStrip "  " = "" from by decide]⟩

/-- C9: when the subprocess exits zero and stdout parses to an empty
collection (empty array or empty object), `get_backup_status` returns a
report with status `no_stanza`, the message "No stanza information
available", and an empty record list. -/
theorem empty_payload_no_stanza (stanza : String) (now : Int) (stderr : String) :
    get_backup_status stanza now
        (SubprocOutcome.completed 0 (Stdout.parsed (PyVal.list [])) stderr) =
      Except.ok ⟨stanza, "no_stanza", some "No stanza information available",
        [], Option.none, Option.none, Option.none, now⟩ ∧
    get_backup_status stanza now
        (SubprocOutcome.completed 0 (Stdout.parsed (PyVal.dict [])) stderr) =
      Except.ok ⟨stanza, "no_stanza", some "No stanza information available",
        [], Option.none, Option.none, Option.none, now⟩ :=
  ⟨rfl, rfl⟩

/-- C5 counterexample: with active = 5 and a reported maximum of 0 the
collector reports a connection usage of 5, not 0, so "reports 0 whenever
the maximum connection count is reported as zero" fails. -/
theorem connection_usage_zero_max_counterexample :
    connection_usage_percent (some 5) (some 0) = 5 ∧ (5 : ℚ) ≠ 0 := by
  constructor
  · norm_num [connection_usage_percent, pyOrInt, round2, round_eq]
  · norm_num

/-- C5 (amended): the collector computes connection usage as
active/max×100 when the reported maximum is positive; a reported maximum
of zero is falsy and is replaced by the default 100 before the division,
so usage becomes active/100×100 = active, and in particular active = 0
with max = 0 yields 0. -/
theorem connection_usage_amended (a m : Int) (hm : 0 < m) :
    connection_usage_percent (some a) (some m) = round2 ((a : ℚ) / (m : ℚ) * 100) ∧
    connection_usage_percent (some a) (some 0) = round2 ((a : ℚ) / 100 * 100) ∧
    connection_usage_percent (some 0) (some 0) = 0 := by
  refine ⟨?_, ?_, ?_⟩
  · rcases eq_or_ne a 0 with rfl | ha
    · simp [connection_usage_percent, pyOrInt, hm.ne', hm]
    · simp [connection_usage_percent, pyOrInt, hm.ne', hm, ha]
  · rcases eq_or_ne a 0 with rfl | ha
    · simp [connection_usage_percent, pyOrInt]
    · simp [connection_usage_percent, pyOrInt, ha]
  · norm_num [connection_usage_percent, pyOrInt, round2, round_eq]

/-- C5 witness: active = 1, max = 2 gives usage 1/2×100. -/
theorem connection_usage_amended_witness :
    (0 : Int) < 2 ∧
    connection_usage_percent (some 1) (some 2) =
      round2 (((1 : Int) : ℚ) / ((2 : Int) : ℚ) * 100) :=
  ⟨by decide, (connection_usage_amended 1 2 (by decide)).1⟩

/-- C8: the collector computes cache-hit ratio as hits/(hits+reads)×100
whenever any block was touched, returns 100.0 when both counters are
zero, and in particular hits = 9, reads = 1 gives 90.0. -/
theorem cache_hit_ratio_spec (hits reads : Int) (h : 0 < hits + reads) :
    cache_hit_ratio (some reads) (some hits) =
      round2 ((hits : ℚ) / ((hits : ℚ) + (reads : ℚ)) * 100) ∧
    cache_hit_ratio (some 0) (some 0) = 100 ∧
    cache_hit_ratio (some 1) (some 9) = 90 := by
  refine ⟨?_, ?_, ?_⟩
  · have h' : (0 : Int) < reads + hits := by omega
    simp only [cache_hit_ratio, pyOrInt_some_zero]
    rw [if_pos h']
    congr 1
    push_cast
    ring
  · norm_num [cache_hit_ratio, pyOrInt, round2, round_eq]
  · norm_num [cache_hit_ratio, pyOrInt, round2, round_eq]

/-- C8 witness: hits = 9, reads = 1 satisfies the positivity hypothesis
and the general formula. -/
theorem cache_hit_ratio_spec_witness :
    (0 : Int) < 9 + 1 ∧
    cache_hit_ratio (some 1) (some 9) =
      round2 (((9 : Int) : ℚ) / (((9 : Int) : ℚ) + ((1 : Int) : ℚ)) * 100) :=
  ⟨by decide, (cache_hit_ratio_spec 9 1 (by decide)).1⟩

/-- C6: the readiness handler returns 200 with body
(status, database, timestamp) when the database round-trip succeeds, and
on any failure — a raised exception or an unexpected fetch value —
returns 503 whose detail is an object of the same shape with a diagnostic
status string embedded. -/
theorem readiness_check_contract (now : Int) (e : String) (v : PyVal)
    (hv : pyEqInt v 1 = false) :
    readiness_check now (DbAttempt.fetched (PyVal.int 1)) =
      ReadyOutcome.ok200 ⟨"ready", "connected", now⟩ ∧
    readiness_check now (DbAttempt.raised e) =
      ReadyOutcome.err503 ⟨"not_ready", "error: " ++ e, now⟩ ∧
    readiness_check now (DbAttempt.fetched v) =
      ReadyOutcome.err503 ⟨"not_ready", "error", now⟩ := by
  refine ⟨rfl, ?_, ?_⟩
  · have hne : "error: " ++ e ≠ "connected" := by
      intro hcontra
      have h2 : ("error: " ++ e).data = "connected".data := congrArg String.data hcontra
      simp [String.data_append] at h2
    simp [readiness_check, hne]
  · simp [readiness_check, hv]

/-- C6 witness: a fetch returning 2 is not a successful round-trip and
yields the 503 with the embedded diagnostic body. -/
theorem readiness_check_contract_witness :
    pyEqInt (PyVal.int 2) 1 = false ∧
    readiness_check 0 (DbAttempt.fetched (PyVal.int 2)) =
      ReadyOutcome.err503 ⟨"not_ready", "error", 0⟩ :=
  ⟨by decide, (readiness_check_contract 0 "x" (PyVal.int 2) (by decide)).2.2⟩

/-- C7: an update request with no fields present is rejected with 400 and
modifies nothing; a body containing only price changes only price and
updated_at; in general the update sets exactly the fields present in the
body plus updated_at and leaves every other column unchanged. -/
theorem update_item_frame (item : ItemUpdate) (row : ItemRow) (now : Int) :
    update_item ⟨Option.none, Option.none, Option.none, Option.none⟩ now (some row) =
      (UpdateOutcome.badRequest400, some row) ∧
    (∀ p : ℚ, update_item ⟨Option.none, Option.none, some p, Option.none⟩ now (some row) =
      (UpdateOutcome.updated { row with price := p, updated_at := now },
       some { row with price := p, updated_at := now })) ∧
    (item ≠ ⟨Option.none, Option.none, Option.none, Option.none⟩ →
      ∃ r, update_item item now (some row) = (UpdateOutcome.updated r, some r) ∧
        r.name = item.name.getD row.name ∧
        r.description = (item.description.map some).getD row.description ∧
        r.price = item.price.getD row.price ∧
        r.is_active = item.is_active.getD row.is_active ∧
        r.updated_at = now ∧ r.id = row.id ∧ r.created_at = row.created_at) := by
  refine ⟨rfl, fun p => rfl, fun hne => ?_⟩
  rcases item with ⟨n, d, p, a⟩
  rcases n with _ | n <;> rcases d with _ | d <;> rcases p with _ | p <;>
    rcases a with _ | a
  · simp at hne
  all_goals exact ⟨_, rfl, rfl, rfl, rfl, rfl, rfl, rfl, rfl⟩

/-- C7 witness: a body containing only price = 5 updates price and
updated_at of the stored row and leaves the other columns unchanged. -/
theorem update_item_frame_witness :
    (⟨Option.none, Option.none, some 5, Option.none⟩ : ItemUpdate) ≠
      ⟨Option.none, Option.none, Option.none, Option.none⟩ ∧
    (∃ r, update_item ⟨Option.none, Option.none, some 5, Option.none⟩ 7
        (some ⟨1, "a", Option.none, 2, true, 0, 0⟩) =
        (UpdateOutcome.updated r, some r) ∧
      r.name = (Option.none : Option String).getD "a" ∧
      r.description = ((Option.none : Option String).map some).getD Option.none ∧
      r.price = (some (5 : ℚ)).getD 2 ∧
      r.is_active = (Option.none : Option Bool).getD true ∧
      r.updated_at = 7 ∧ r.id = 1 ∧ r.created_at = 0) :=
  ⟨by decide, (update_item_frame ⟨Option.none, Option.none, some 5, Option.none⟩
    ⟨1, "a", Option.none, 2, true, 0, 0⟩ 7).2.2 (by decide)⟩

lemma exbind_pure {α β : Type} (a : α) (f : α → Except Unit β) :
    (Except.ok a >>= f) = f a := rfl

lemma exbind_ok_iff {α β : Type} (e : Except Unit α) (f : α → Except Unit β) (b : β) :
    (e >>= f) = Except.ok b ↔ ∃ a, e = Except.ok a ∧ f a = Except.ok b := by
  cases e <;> simp [Bind.bind, Except.bind]

lemma pyGetD_dict (kvs : List (String × PyVal)) (k : String) (d : PyVal) :
    pyGetD (PyVal.dict kvs) k d = Except.ok ((pyLookup kvs k).getD d) := rfl

lemma get_backup_status_dict_head (stanza : String) (now : Int) (stderr : String)
    (fields : List (String × PyVal)) (rest : List PyVal) :
    get_backup_status stanza now (SubprocOutcome.completed 0
      (Stdout.parsed (PyVal.list (PyVal.dict fields :: rest))) stderr) =
      processStanzaInfo stanza now (PyVal.dict fields) := rfl

lemma processStanzaInfo_inv (stanza : String) (now : Int)
    (fields : List (String × PyVal)) (r : BackupResponse)
    (h : processStanzaInfo stanza now (PyVal.dict fields) = Except.ok r) :
    ∃ codeV msgV entries bs lf ld wal sm,
      pyGetD ((pyLookup fields "status").getD (PyVal.dict [])) "code" (PyVal.int 99)
        = Except.ok codeV ∧
      pyGetD ((pyLookup fields "status").getD (PyVal.dict [])) "message"
        (PyVal.str "Unknown") = Except.ok msgV ∧
      pyIter ((pyLookup fields "backup").getD (PyVal.list [])) = Except.ok entries ∧
      processBackups entries Option.none Option.none = Except.ok (bs, lf, ld) ∧
      validateStatusMessage (mapStatusCode codeV) msgV = Except.ok sm ∧
      r = ⟨stanza, mapStatusCode codeV, sm, bs, wal, lf, ld, now⟩ := by
  rw [processStanzaInfo] at h
  rw [pyGetD_dict, exbind_pure] at h
  rw [exbind_ok_iff] at h
  obtain ⟨codeV, hcode, h⟩ := h
  rw [pyGetD_dict, exbind_pure] at h
  rw [exbind_ok_iff] at h
  obtain ⟨msgV, hmsg, h⟩ := h
  rw [pyGetD_dict, exbind_pure] at h
  rw [exbind_ok_iff] at h
  obtain ⟨entries, hiter, h⟩ := h
  rw [exbind_ok_iff] at h
  obtain ⟨⟨bs, lf, ld⟩, hpb, h⟩ := h
  rw [exbind_pure] at h
  rw [exbind_ok_iff] at h
  obtain ⟨wal, hwal, h⟩ := h
  rw [exbind_ok_iff] at h
  obtain ⟨sm, hsm, h⟩ := h
  simp only [Except.ok.injEq] at h
  exact ⟨codeV, msgV, entries, bs, lf, ld, wal, sm, hcode, hmsg, hiter, hpb, hsm, h.symm⟩

lemma processBackups_parts :
    ∀ (entries : List PyVal) (lf0 ld0 : Option Int) (bs : List BackupInfo)
      (lf ld : Option Int),
      processBackups entries lf0 ld0 = Except.ok (bs, lf, ld) →
      lf = (fullStops bs).foldl stepMax lf0 ∧
      ld = (diffStops bs).foldl stepMax ld0 ∧
      bs = entries.filterMap (fun e => (parseBackupEntry e).toOption)
  | [], lf0, ld0, bs, lf, ld, h => by
      simp only [processBackups, Except.ok.injEq, Prod.mk.injEq] at h
      obtain ⟨rfl, rfl, rfl⟩ := h
      simp [fullStops, diffStops]
  | e :: rest, lf0, ld0, bs, lf, ld, h => by
      rw [processBackups] at h
      rw [exbind_ok_iff] at h
      obtain ⟨b, hb, h⟩ := h
      rw [exbind_ok_iff] at h
      obtain ⟨⟨bs1, lf1, ld1⟩, hrest, h⟩ := h
      simp only [Except.ok.injEq, Prod.mk.injEq] at h
      obtain ⟨rfl, rfl, rfl⟩ := h
      rcases hstop : b.stop_time with _ | t
      · simp only [hstop] at hrest
        obtain ⟨ih1, ih2, ih3⟩ := processBackups_parts rest _ _ _ _ _ hrest
        subst ih3
        refine ⟨?_, ?_, ?_⟩
        · rw [ih1]
          simp [fullStops, List.filterMap_cons, hstop]
        · rw [ih2]
          simp [diffStops, List.filterMap_cons, hstop]
        · simp [List.filterMap_cons, hb, Except.toOption]
      · by_cases hty : b.type = "full"
        · simp [hstop, hty] at hrest
          obtain ⟨ih1, ih2, ih3⟩ := processBackups_parts rest _ _ _ _ _ hrest
          subst ih3
          refine ⟨?_, ?_, ?_⟩
          · rw [ih1]
            simp [fullStops, List.filterMap_cons, hty, hstop]
          · rw [ih2]
            simp [diffStops, List.filterMap_cons, hty, hstop]
          · simp [List.filterMap_cons, hb, Except.toOption]
        · by_cases htyd : b.type = "diff"
          · simp [hstop, hty, htyd] at hrest
            obtain ⟨ih1, ih2, ih3⟩ := processBackups_parts rest _ _ _ _ _ hrest
            subst ih3
            refine ⟨?_, ?_, ?_⟩
            · rw [ih1]
              simp [fullStops, List.filterMap_cons, hty, hstop]
            · rw [ih2]
              simp [diffStops, List.filterMap_cons, htyd, hstop]
            · simp [List.filterMap_cons, hb, Except.toOption]
          · simp [hstop, hty, htyd] at hrest
            obtain ⟨ih1, ih2, ih3⟩ := processBackups_parts rest _ _ _ _ _ hrest
            subst ih3
            refine ⟨?_, ?_, ?_⟩
            · rw [ih1]
              simp [fullStops, List.filterMap_cons, hty, hstop]
            · rw [ih2]
              simp [diffStops, List.filterMap_cons, htyd, hstop]
            · simp [List.filterMap_cons, hb, Except.toOption]

lemma stepMax_some (c t : Int) : stepMax (some c) t = some (max c t) := by
  rcases le_or_lt t c with h | h
  · simp [stepMax, not_lt.mpr h, max_eq_left h]
  · simp [stepMax, h, max_eq_right h.le]

lemma foldl_stepMax_some (xs : List Int) (c : Int) :
    xs.foldl stepMax (some c) = some (xs.foldl max c) := by
  induction xs generalizing c with
  | nil => rfl
  | cons x xs ih => rw [List.foldl_cons, stepMax_some, ih, List.foldl_cons]

lemma foldl_stepMax_none_eq_maxQ (l : List Int) :
    l.foldl stepMax Option.none = l.max? := by
  cases l with
  | nil => rfl
  | cons x xs =>
      rw [List.foldl_cons]
      show xs.foldl stepMax (some x) = _
      rw [foldl_stepMax_some]
      rfl

lemma int_maxQ_eq_some_iff (l : List Int) (m : Int) :
    l.max? = some m ↔ m ∈ l ∧ ∀ b ∈ l, b ≤ m := by
  have anti : Std.Antisymm (fun x1 x2 : Int => x1 ≤ x2) :=
    ⟨@fun a b h h' => le_antisymm h h'⟩
  exact List.max?_eq_some_iff (fun a => le_refl a) (fun a b => max_choice a b)
    (fun a b c => max_le_iff)

lemma int_maxQ_perm (l l' : List Int) (hp : l.Perm l') : l.max? = l'.max? := by
  cases hl : l.max? with
  | none =>
      rw [List.max?_eq_none_iff] at hl
      subst hl
      rw [List.max?_eq_none_iff.mpr hp.symm.eq_nil]
  | some m =>
      rw [int_maxQ_eq_some_iff] at hl
      symm
      rw [int_maxQ_eq_some_iff]
      exact ⟨hp.mem_iff.mp hl.1, fun b hb => hl.2 b (hp.mem_iff.mpr hb)⟩

/-- C2: in every report built from a payload, `last_full_backup` is the
maximum `stop_time` over returned records of type "full" that have one
(`Option.none` exactly when no such record exists, a record lacking a
`stop_time` contributing to neither maximum by the definition of
`fullStops`/`diffStops`), likewise `last_diff_backup` over type "diff";
and two runs whose backup entry lists are permutations of each other
yield the same `last_full_backup` and `last_diff_backup`. -/
theorem last_backup_maxima (stanza : String) (now : Int) (stderr stderr' : String)
    (fields fields' : List (String × PyVal)) (rest rest' : List PyVal)
    (entries entries' : List PyVal) (r r' : BackupResponse)
    (h : get_backup_status stanza now (SubprocOutcome.completed 0
      (Stdout.parsed (PyVal.list (PyVal.dict fields :: rest))) stderr) = Except.ok r)
    (hb : pyLookup fields "backup" = some (PyVal.list entries))
    (h' : get_backup_status stanza now (SubprocOutcome.completed 0
      (Stdout.parsed (PyVal.list (PyVal.dict fields' :: rest'))) stderr') = Except.ok r')
    (hb' : pyLookup fields' "backup" = some (PyVal.list entries'))
    (hperm : entries.Perm entries') :
    (r.last_full_backup = Option.none ↔ fullStops r.backups = []) ∧
    (∀ m, r.last_full_backup = some m ↔
      m ∈ fullStops r.backups ∧ ∀ t ∈ fullStops r.backups, t ≤ m) ∧
    (r.last_diff_backup = Option.none ↔ diffStops r.backups = []) ∧
    (∀ m, r.last_diff_backup = some m ↔
      m ∈ diffStops r.backups ∧ ∀ t ∈ diffStops r.backups, t ≤ m) ∧
    r'.last_full_backup = r.last_full_backup ∧
    r'.last_diff_backup = r.last_diff_backup := by
  rw [get_backup_status_dict_head] at h h'
  obtain ⟨codeV, msgV, entsI, bs, lf, ld, wal, sm, hcode, hmsg, hiter, hpb, hsm, hr⟩ :=
    processStanzaInfo_inv _ _ _ _ h
  obtain ⟨codeV', msgV', entsI', bs', lf', ld', wal', sm', hcode', hmsg', hiter', hpb',
    hsm', hr'⟩ := processStanzaInfo_inv _ _ _ _ h'
  rw [hb] at hiter
  rw [hb'] at hiter'
  simp only [Option.getD_some, pyIter, Except.ok.injEq] at hiter hiter'
  subst hiter
  subst hiter'
  obtain ⟨hlf, hld, hbs⟩ := processBackups_parts _ _ _ _ _ _ hpb
  obtain ⟨hlf', hld', hbs'⟩ := processBackups_parts _ _ _ _ _ _ hpb'
  rw [foldl_stepMax_none_eq_maxQ] at hlf hld hlf' hld'
  subst hr
  subst hr'
  subst hlf
  subst hld
  subst hlf'
  subst hld'
  have hpbs : bs.Perm bs' := by
    rw [hbs, hbs']
    exact hperm.filterMap _
  have hfull : (fullStops bs).Perm (fullStops bs') := by
    unfold fullStops
    exact hpbs.filterMap _
  have hdiff : (diffStops bs).Perm (diffStops bs') := by
    unfold diffStops
    exact hpbs.filterMap _
  refine ⟨List.max?_eq_none_iff, fun m => int_maxQ_eq_some_iff _ m,
    List.max?_eq_none_iff, fun m => int_maxQ_eq_some_iff _ m,
    (int_maxQ_perm _ _ hfull).symm, (int_maxQ_perm _ _ hdiff).symm⟩

/-- C2 witness: two full-type records with stop times 2 and 1, presented
in both orders, give reports whose `last_full_backup` agree (and equal
the maximum, 2). -/
theorem last_backup_maxima_witness :
    get_backup_status "db" 0 (SubprocOutcome.completed 0 (Stdout.parsed
      (PyVal.list [PyVal.dict [("backup", PyVal.list [entryFullA, entryFullB])]])) "") =
      Except.ok ⟨"db", "error", some "Unknown", [recFullA, recFullB],
        Option.none, some 2, Option.none, 0⟩ ∧
    get_backup_status "db" 0 (SubprocOutcome.completed 0 (Stdout.parsed
      (PyVal.list [PyVal.dict [("backup", PyVal.list [entryFullB, entryFullA])]])) "") =
      Except.ok ⟨"db", "error", some "Unknown", [recFullB, recFullA],
        Option.none, some 2, Option.none, 0⟩ ∧
    (⟨"db", "error", some "Unknown", [recFullB, recFullA], Option.none, some 2,
      Option.none, 0⟩ : BackupResponse).last_full_backup =
      (⟨"db", "error", some "Unknown", [recFullA, recFullB], Option.none, some 2,
        Option.none, 0⟩ : BackupResponse).last_full_backup :=
  ⟨rfl, rfl,
    (last_backup_maxima "db" 0 "" ""
      [("backup", PyVal.list [entryFullA, entryFullB])]
      [("backup", PyVal.list [entryFullB, entryFullA])] [] []
      [entryFullA, entryFullB] [entryFullB, entryFullA]
      ⟨"db", "error", some "Unknown", [recFullA, recFullB], Option.none, some 2,
        Option.none, 0⟩
      ⟨"db", "error", some "Unknown", [recFullB, recFullA], Option.none, some 2,
        Option.none, 0⟩
      rfl rfl rfl rfl (List.Perm.swap entryFullB entryFullA [])).2.2.2.2.1⟩

/-- C3: when the subprocess succeeds on a non-empty array whose first
element carries an integer status code (99 when absent) and a string
message ("Unknown" when absent), the report's status maps 0 to ok, 1 to
missing_stanza, 2 to no_backup, anything else to error, and the message
is included exactly when the mapped status is not ok. -/
theorem status_code_mapping (stanza : String) (now : Int) (stderr : String)
    (fields sfields : List (String × PyVal)) (rest : List PyVal)
    (code : Int) (msg : String) (r : BackupResponse)
    (h : get_backup_status stanza now (SubprocOutcome.completed 0
      (Stdout.parsed (PyVal.list (PyVal.dict fields :: rest))) stderr) = Except.ok r)
    (hs : pyLookup fields "status" = some (PyVal.dict sfields) ∨
      (pyLookup fields "status" = Option.none ∧ sfields = []))
    (hc : pyLookup sfields "code" = some (PyVal.int code) ∨
      (pyLookup sfields "code" = Option.none ∧ code = 99))
    (hm : pyLookup sfields "message" = some (PyVal.str msg) ∨
      (pyLookup sfields "message" = Option.none ∧ msg = "Unknown")) :
    r.status = (if code = 0 then "ok" else if code = 1 then "missing_stanza"
      else if code = 2 then "no_backup" else "error") ∧
    r.status_message = (if code = 0 then Option.none else some msg) ∧
    (r.status_message ≠ Option.none ↔ r.status ≠ "ok") := by
  rw [get_backup_status_dict_head] at h
  obtain ⟨codeV, msgV, ents, bs, lf, ld, wal, sm, hcode, hmsg, hiter, hpb, hsm, hr⟩ :=
    processStanzaInfo_inv _ _ _ _ h
  have hsd : (pyLookup fields "status").getD (PyVal.dict []) = PyVal.dict sfields := by
    rcases hs with hs | ⟨hs, rfl⟩ <;> simp [hs]
  rw [hsd, pyGetD_dict] at hcode hmsg
  have hcv : codeV = PyVal.int code := by
    rcases hc with hc | ⟨hc, rfl⟩ <;> simp only [hc, Option.getD_some, Option.getD_none,
      Except.ok.injEq] at hcode <;> exact hcode.symm
  have hmv : msgV = PyVal.str msg := by
    rcases hm with hm | ⟨hm, rfl⟩ <;> simp only [hm, Option.getD_some, Option.getD_none,
      Except.ok.injEq] at hmsg <;> exact hmsg.symm
  subst hcv
  subst hmv
  subst hr
  rcases eq_or_ne code 0 with rfl | h0
  · have hsm' : sm = Option.none := by
      simpa [validateStatusMessage, mapStatusCode, pyEqInt] using hsm.symm
    subst hsm'
    simp [mapStatusCode, pyEqInt]
  · rcases eq_or_ne code 1 with rfl | h1
    · have hsm' : sm = some msg := by
        simpa [validateStatusMessage, mapStatusCode, pyEqInt, asOptStr] using hsm.symm
      subst hsm'
      simp [mapStatusCode, pyEqInt]
    · rcases eq_or_ne code 2 with rfl | h2
      · have hsm' : sm = some msg := by
          simpa [validateStatusMessage, mapStatusCode, pyEqInt, asOptStr] using hsm.symm
        subst hsm'
        simp [mapStatusCode, pyEqInt]
      · have hsm' : sm = some msg := by
          simpa [validateStatusMessage, mapStatusCode, pyEqInt, asOptStr, h0, h1, h2]
            using hsm.symm
        subst hsm'
        simp [mapStatusCode, pyEqInt, h0, h1, h2]

/-- C3 witness: status code 1 with message "m" maps to missing_stanza
with the message included. -/
theorem status_code_mapping_witness :
    get_backup_status "s" 0 (SubprocOutcome.completed 0 (Stdout.parsed (PyVal.list
      [PyVal.dict [("status",
        PyVal.dict [("code", PyVal.int 1), ("message", PyVal.str "m")])]])) "") =
      Except.ok ⟨"s", "missing_stanza", some "m", [], Option.none, Option.none,
        Option.none, 0⟩ ∧
    ((⟨"s", "missing_stanza", some "m", [], Option.none, Option.none, Option.none, 0⟩ :
        BackupResponse).status = (if (1 : Int) = 0 then "ok" else if (1 : Int) = 1
        then "missing_stanza" else if (1 : Int) = 2 then "no_backup" else "error") ∧
      (⟨"s", "missing_stanza", some "m", [], Option.none, Option.none, Option.none, 0⟩ :
        BackupResponse).status_message =
        (if (1 : Int) = 0 then Option.none else some "m") ∧
      ((⟨"s", "missing_stanza", some "m", [], Option.none, Option.none, Option.none, 0⟩ :
        BackupResponse).status_message ≠ Option.none ↔
        (⟨"s", "missing_stanza", some "m", [], Option.none, Option.none, Option.none, 0⟩ :
        BackupResponse).status ≠ "ok")) :=
  ⟨rfl, status_code_mapping "s" 0 ""
    [("status", PyVal.dict [("code", PyVal.int 1), ("message", PyVal.str "m")])]
    [("code", PyVal.int 1), ("message", PyVal.str "m")] [] 1 "m"
    ⟨"s", "missing_stanza", some "m", [], Option.none, Option.none, Option.none, 0⟩
    rfl (Or.inl rfl) (Or.inl rfl) (Or.inl rfl)⟩

/-- C10: well-formed JSON payloads that are truthy but not arrays — a
non-empty object, a non-zero number — make `get_backup_status` raise out
of the parsing path and surface as the generic 500; conversely, any
payload for which the handler returns a report is falsy or an array. -/
theorem truthy_nonlist_payload_500 (stanza : String) (now : Int) (stderr : String) :
    backups_endpoint stanza now (SubprocOutcome.completed 0
      (Stdout.parsed (PyVal.dict [("a", PyVal.int 1)])) stderr) = HttpBackup.error500 ∧
    backups_endpoint stanza now (SubprocOutcome.completed 0
      (Stdout.parsed (PyVal.int 5)) stderr) = HttpBackup.error500 ∧
    (∀ v r, get_backup_status stanza now
        (SubprocOutcome.completed 0 (Stdout.parsed v) stderr) = Except.ok r →
      pyTruthy v = false ∨ ∃ xs, v = PyVal.list xs) := by
  refine ⟨rfl, rfl, fun v r h => ?_⟩
  cases v with
  | none => exact Or.inl rfl
  | bool b =>
      cases b
      · exact Or.inl rfl
      · exfalso
        simp [get_backup_status, pyTruthy, pyIndex0, Bind.bind, Except.bind] at h
  | int n =>
      rcases eq_or_ne n 0 with rfl | hn
      · exact Or.inl rfl
      · exfalso
        simp [get_backup_status, pyTruthy, hn, pyIndex0, Bind.bind, Except.bind] at h
  | str s =>
      obtain ⟨data⟩ := s
      cases data with
      | nil => exact Or.inl (by decide)
      | cons c cs =>
          exfalso
          have hne : (⟨c :: cs⟩ : String) ≠ "" := by
            simp [String.ext_iff]
          simp [get_backup_status, processStanzaInfo, pyTruthy, hne, pyIndex0, pyGetD,
            Bind.bind, Except.bind] at h
  | list xs => exact Or.inr ⟨xs, rfl⟩
  | dict kvs =>
      cases kvs with
      | nil => exact Or.inl rfl
      | cons kv rest =>
          exfalso
          simp [get_backup_status, pyTruthy, pyIndex0, Bind.bind, Except.bind] at h

/-- C10 witness: the empty-array payload does return a report, and it is
indeed an array. -/
theorem truthy_nonlist_payload_500_witness :
    get_backup_status "s" 0 (SubprocOutcome.completed 0
      (Stdout.parsed (PyVal.list [])) "") =
      Except.ok ⟨"s", "no_stanza", some "No stanza information available",
        [], Option.none, Option.none, Option.none, 0⟩ ∧
    (pyTruthy (PyVal.list []) = false ∨ ∃ xs, PyVal.list [] = PyVal.list xs) :=
  ⟨rfl, (truthy_nonlist_payload_500 "s" 0 "").2.2 (PyVal.list [])
    ⟨"s", "no_stanza", some "No stanza information available",
      [], Option.none, Option.none, Option.none, 0⟩ rfl⟩
